import Mathlib

/-!
# AMG memory-governance control plane: a shallow embedding

This file embeds the core of the AMG repository (types, policy engine,
kill switch, in-memory storage adapter, governed context builder, audit
signing) as executable Lean definitions, translated from the Python
sources in `src/amg/`, and proves/refutes the specification claims
C1–C10 about them.

Modelling conventions:
* Python `datetime` values are modelled as `Int` (seconds) wherever
  arithmetic or comparison is performed, and as their ISO-8601 `String`
  rendering wherever only `isoformat()` is used (audit signing).
* Nondeterministic fresh values (`uuid4()`, `datetime.utcnow()`) are
  passed to each operation as explicit parameters.
* Python `dict`s are modelled as insertion-ordered association lists
  (`List (String × _)`), matching CPython's ordered-dict semantics.
* Python floats in embedding vectors are modelled as exact rationals.
-/

set_option autoImplicit false

namespace AMG

/-- The `MemoryType` from `amg/types.py`. -/
inductive MemoryType where
  | short_term
  | long_term
  | episodic
deriving DecidableEq, Repr

/-- The `.value` string of a `MemoryType` member. -/
def MemoryType.value : MemoryType → String
  | .short_term => "short_term"
  | .long_term => "long_term"
  | .episodic => "episodic"

/-- The `Sensitivity` from `amg/types.py`. -/
inductive Sensitivity where
  | pii
  | non_pii
deriving DecidableEq, Repr

/-- The `.value` string of a `Sensitivity` member. -/
def Sensitivity.value : Sensitivity → String
  | .pii => "pii"
  | .non_pii => "non_pii"

/-- The `Scope` from `amg/types.py`. -/
inductive Scope where
  | agent
  | tenant
deriving DecidableEq, Repr

/-- The `.value` string of a `Scope` member. -/
def Scope.value : Scope → String
  | .agent => "agent"
  | .tenant => "tenant"

/-- The `MemoryPolicy` from `amg/types.py` (field data only; the
`__post_init__` validation lives in `MemoryPolicy.mk?`). -/
structure MemoryPolicy where
  memory_type : MemoryType
  ttl_seconds : Int
  sensitivity : Sensitivity
  scope : Scope
  allow_read : Bool := true
  allow_write : Bool := true
  provenance : Option String := none
deriving DecidableEq, Repr

/-- The `MemoryPolicy` construction including `__post_init__`: raises
`ValueError` when `ttl_seconds <= 0`.  The raise is modelled as
`Except.error`. -/
def MemoryPolicy.mk? (memory_type : MemoryType) (ttl_seconds : Int)
    (sensitivity : Sensitivity) (scope : Scope)
    (allow_read : Bool := true) (allow_write : Bool := true)
    (provenance : Option String := none) : Except String MemoryPolicy :=
  if ttl_seconds ≤ 0 then
    .error "TTL must be positive"
  else
    .ok { memory_type := memory_type, ttl_seconds := ttl_seconds,
          sensitivity := sensitivity, scope := scope,
          allow_read := allow_read, allow_write := allow_write,
          provenance := provenance }

/-- The `Memory` from `amg/types.py`.  `created_at`/`expires_at` are modelled
as `Int` seconds; the embedding vector as exact rationals. -/
structure Memory where
  memory_id : String
  agent_id : String
  content : String
  vector : Option (List ℚ) := none
  policy : MemoryPolicy
  created_at : Int
  expires_at : Int
  created_by : String := "agent"
deriving DecidableEq, Repr

/-- The `Memory` construction including `__post_init__`: `memory_id`
defaults to a fresh uuid (passed in as `fresh_id`), and `expires_at`
defaults to `created_at + policy.ttl_seconds`.  No validation is
performed by the source dataclass, so construction never fails; a
`Except` result type is used so that "construction rejects ..." claims
are statable. -/
def Memory.mk? (fresh_id : String) (memory_id : Option String)
    (agent_id : String) (content : String) (vector : Option (List ℚ))
    (policy : MemoryPolicy) (created_at : Int)
    (expires_at : Option Int := none) (created_by : String := "agent") :
    Except String Memory :=
  .ok { memory_id := memory_id.getD fresh_id,
        agent_id := agent_id,
        content := content,
        vector := vector,
        policy := policy,
        created_at := created_at,
        expires_at := expires_at.getD (created_at + policy.ttl_seconds),
        created_by := created_by }

/-- The `Memory.is_expired` from `amg/types.py`:
`now >= self.expires_at`. -/
def Memory.is_expired (m : Memory) (now : Int) : Bool :=
  now ≥ m.expires_at

/-- Values stored in the free-form `metadata` dictionaries. -/
inductive MetaVal where
  | str (s : String)
  | int (n : Int)
  | bool (b : Bool)
deriving DecidableEq, Repr

/-- The `AuditRecord` from `amg/types.py`.  `timestamp` is kept as its
ISO-8601 string (the only use made of it by the signing path). -/
structure AuditRecord where
  audit_id : String
  timestamp : String
  agent_id : String := ""
  request_id : String := ""
  operation : String := ""
  memory_id : Option String := none
  policy_version : String := "1.0.0"
  decision : String := ""
  reason : String := ""
  actor_id : String := ""
  metadata : List (String × MetaVal) := []
  signature : String := ""
deriving DecidableEq, Repr

/-! ## Policy engine (`amg/policy.py`) -/

/-- The `PolicyDecision` from `amg/policy.py`. -/
inductive PolicyDecision where
  | allowed
  | denied
  | requires_approval
deriving DecidableEq, Repr

/-- The `PolicyEvaluationResult` from `amg/policy.py`. -/
structure PolicyEvaluationResult where
  decision : PolicyDecision
  reason : String
  metadata : List (String × MetaVal)
deriving DecidableEq, Repr

namespace PolicyEngine

/-- The `PolicyEngine._get_max_ttl` with the default configuration
(`_default_config`'s `ttl` table). -/
def get_max_ttl (sensitivity : Sensitivity) (scope : Scope) : Int :=
  match sensitivity, scope with
  | .pii, .agent => 86400
  | .pii, .tenant => 604800
  | .non_pii, .agent => 2592000
  | .non_pii, .tenant => 7776000

/-- The `PolicyEngine.evaluate_write` from `amg/policy.py`, with the default
configuration. -/
def evaluate_write (memory : Memory) (agent_id : String) :
    PolicyEvaluationResult :=
  if memory.agent_id ≠ agent_id then
    { decision := .denied, reason := "agent_ownership_violation",
      metadata := [("expected_agent", .str memory.agent_id),
                   ("requesting_agent", .str agent_id)] }
  else if memory.policy.ttl_seconds ≤ 0 then
    { decision := .denied, reason := "invalid_ttl",
      metadata := [("ttl", .int memory.policy.ttl_seconds)] }
  else if memory.policy.ttl_seconds >
      get_max_ttl memory.policy.sensitivity memory.policy.scope then
    { decision := .denied, reason := "ttl_exceeds_policy",
      metadata := [("ttl", .int memory.policy.ttl_seconds),
                   ("max_allowed", .int (get_max_ttl memory.policy.sensitivity memory.policy.scope)),
                   ("sensitivity", .str memory.policy.sensitivity.value),
                   ("scope", .str memory.policy.scope.value)] }
  else if ¬ memory.policy.allow_write then
    { decision := .denied, reason := "write_not_allowed", metadata := [] }
  else
    { decision := .allowed, reason := "all_policy_checks_passed",
      metadata := [("ttl_seconds", .int memory.policy.ttl_seconds),
                   ("sensitivity", .str memory.policy.sensitivity.value),
                   ("scope", .str memory.policy.scope.value)] }

end PolicyEngine

/-! ## Kill switch (`amg/kill_switch.py`) -/

/-- The `AgentState` from `amg/kill_switch.py`. -/
inductive AgentState where
  | enabled
  | disabled
  | frozen
deriving DecidableEq, Repr

/-- The `OperationType` from `amg/kill_switch.py`. -/
inductive OperationType where
  | read
  | write
  | query
deriving DecidableEq, Repr

/-- The mutable state of a `KillSwitch` instance: the per-agent state
dict and the audit-log dict (`audit_id → record`), both
insertion-ordered. -/
structure KillSwitch where
  agent_states : List (String × AgentState) := []
  audit_log : List (String × AuditRecord) := []
deriving Repr

/-- The `dict.get(key, default)` on an insertion-ordered association
list. -/
def dictGetD {V : Type} (d : List (String × V)) (k : String) (dflt : V) : V :=
  match d.find? (fun p => p.1 == k) with
  | some p => p.2
  | none => dflt

/-- The `dict[key] = value` on an insertion-ordered association list: an
existing key is updated in place, a new key is appended. -/
def dictSet {V : Type} (d : List (String × V)) (k : String) (v : V) :
    List (String × V) :=
  if d.any (fun p => p.1 == k) then
    d.map (fun p => if p.1 == k then (k, v) else p)
  else
    d ++ [(k, v)]

/-- The `KillSwitch.check_allowed` from `amg/kill_switch.py`. -/
def KillSwitch.check_allowed (ks : KillSwitch) (agent_id : String)
    (operation : OperationType) : Bool × Option String :=
  let state := dictGetD ks.agent_states agent_id .enabled
  if state = .disabled then
    (false, some "agent_disabled")
  else if state = .frozen then
    if operation = .write then
      (false, some "agent_frozen_write_denied")
    else
      (true, none)
  else
    (true, none)

/-! ## SHA-256 (models Python's `hashlib.sha256(...).hexdigest()`) -/

namespace SHA256

/-- Truncation to a 32-bit word. -/
def w32 (n : Nat) : Nat := n % 4294967296

/-- Rotation of a 32-bit word to the right. -/
def rotr (n x : Nat) : Nat := w32 ((x >>> n) ||| (x <<< (32 - n)))

/-- SHA-256 `Ch` function (`¬x` as xor with the 32-bit mask). -/
def ch (x y z : Nat) : Nat := (x &&& y) ^^^ ((x ^^^ 4294967295) &&& z)

/-- SHA-256 `Maj` function. -/
def maj (x y z : Nat) : Nat := (x &&& y) ^^^ (x &&& z) ^^^ (y &&& z)

/-- SHA-256 Σ₀. -/
def bs0 (x : Nat) : Nat := rotr 2 x ^^^ rotr 13 x ^^^ rotr 22 x

/-- SHA-256 Σ₁. -/
def bs1 (x : Nat) : Nat := rotr 6 x ^^^ rotr 11 x ^^^ rotr 25 x

/-- SHA-256 σ₀. -/
def ss0 (x : Nat) : Nat := rotr 7 x ^^^ rotr 18 x ^^^ (x >>> 3)

/-- SHA-256 σ₁. -/
def ss1 (x : Nat) : Nat := rotr 17 x ^^^ rotr 19 x ^^^ (x >>> 10)

/-- The 64 SHA-256 round constants. -/
def K : List Nat :=
  [1116352408, 1899447441, 3049323471,
   3921009573, 961987163, 1508970993,
   2453635748, 2870763221, 3624381080,
   310598401, 607225278, 1426881987,
   1925078388, 2162078206, 2614888103,
   3248222580, 3835390401, 4022224774,
   264347078, 604807628, 770255983,
   1249150122, 1555081692, 1996064986,
   2554220882, 2821834349, 2952996808,
   3210313671, 3336571891, 3584528711,
   113926993, 338241895, 666307205,
   773529912, 1294757372, 1396182291,
   1695183700, 1986661051, 2177026350,
   2456956037, 2730485921, 2820302411,
   3259730800, 3345764771, 3516065817,
   3600352804, 4094571909, 275423344,
   430227734, 506948616, 659060556,
   883997877, 958139571, 1322822218,
   1537002063, 1747873779, 1955562222,
   2024104815, 2227730452, 2361852424,
   2428436474, 2756734187, 3204031479,
   3329325298]

/-- The initial SHA-256 hash value. -/
def H0 : List Nat :=
  [1779033703, 3144134277, 1013904242,
   2773480762, 1359893119, 2600822924,
   528734635, 1541459225]

/-- The `k` big-endian bytes of `n`. -/
def beBytes : Nat → Nat → List Nat
  | 0, _ => []
  | k + 1, n => beBytes k (n >>> 8) ++ [n % 256]

/-- Merkle–Damgård padding: append `0x80`, zeros, and the 64-bit
big-endian bit length. -/
def pad (msg : List Nat) : List Nat :=
  let len := msg.length
  msg ++ [0x80] ++ List.replicate ((64 - (len + 9) % 64) % 64) 0 ++
    beBytes 8 (8 * len)

/-- Split a byte list into 64-byte blocks (fuel-based structural
recursion so that the kernel can evaluate it). -/
def toBlocksAux : Nat → List Nat → List (List Nat)
  | 0, _ => []
  | _, [] => []
  | fuel + 1, l => l.take 64 :: toBlocksAux fuel (l.drop 64)

/-- Split a byte list into 64-byte blocks. -/
def toBlocks (l : List Nat) : List (List Nat) := toBlocksAux l.length l

/-- Pack bytes into big-endian 32-bit words. -/
def toWords : List Nat → List Nat
  | b0 :: b1 :: b2 :: b3 :: rest =>
      (((b0 * 256 + b1) * 256 + b2) * 256 + b3) :: toWords rest
  | _ => []

/-- One step of message-schedule extension: append `W[n]` computed from
the four taps. -/
def schedStep (w : List Nat) : List Nat :=
  let n := w.length
  w ++ [w32 (ss1 (w.getD (n - 2) 0) + w.getD (n - 7) 0 +
             ss0 (w.getD (n - 15) 0) + w.getD (n - 16) 0)]

/-- Extend the message schedule `k` times. -/
def extendW : Nat → List Nat → List Nat
  | 0, w => w
  | k + 1, w => extendW k (schedStep w)

/-- The eight working variables. -/
abbrev Regs := Nat × Nat × Nat × Nat × Nat × Nat × Nat × Nat

/-- One SHA-256 compression round, driven by a `(Kₜ, Wₜ)` pair. -/
def round (st : Regs) (kw : Nat × Nat) : Regs :=
  let (a, b, c, d, e, f, g, hh) := st
  let t1 := w32 (hh + bs1 e + ch e f g + kw.1 + kw.2)
  let t2 := w32 (bs0 a + maj a b c)
  (w32 (t1 + t2), a, b, c, w32 (d + t1), e, f, g)

/-- Compress one 64-byte block into the running hash. -/
def compressBlock (h : List Nat) (block : List Nat) : List Nat :=
  let w := extendW 48 (toWords block)
  let st : Regs := (h.getD 0 0, h.getD 1 0, h.getD 2 0, h.getD 3 0,
                    h.getD 4 0, h.getD 5 0, h.getD 6 0, h.getD 7 0)
  let (a, b, c, d, e, f, g, hh) := (K.zip w).foldl round st
  [w32 (h.getD 0 0 + a), w32 (h.getD 1 0 + b), w32 (h.getD 2 0 + c),
   w32 (h.getD 3 0 + d), w32 (h.getD 4 0 + e), w32 (h.getD 5 0 + f),
   w32 (h.getD 6 0 + g), w32 (h.getD 7 0 + hh)]

/-- A lowercase hex digit. -/
def hexDigit (n : Nat) : Char :=
  if n < 10 then Char.ofNat (48 + n) else Char.ofNat (87 + n)

/-- Eight lowercase hex digits of a 32-bit word, most significant
first. -/
def toHex8 (n : Nat) : List Char :=
  [hexDigit ((n >>> 28) &&& 15), hexDigit ((n >>> 24) &&& 15),
   hexDigit ((n >>> 20) &&& 15), hexDigit ((n >>> 16) &&& 15),
   hexDigit ((n >>> 12) &&& 15), hexDigit ((n >>> 8) &&& 15),
   hexDigit ((n >>> 4) &&& 15), hexDigit (n &&& 15)]

/-- SHA-256 hex digest of a byte list. -/
def hexOfBytes (msg : List Nat) : String :=
  String.mk (((toBlocks (pad msg)).foldl compressBlock H0).flatMap toHex8)

/-- UTF-8 encoding of one code point (Python's `str.encode()`). -/
def utf8Bytes (c : Char) : List Nat :=
  let n := c.toNat
  if n < 0x80 then [n]
  else if n < 0x800 then
    [0xC0 ||| (n >>> 6), 0x80 ||| (n &&& 0x3F)]
  else if n < 0x10000 then
    [0xE0 ||| (n >>> 12), 0x80 ||| ((n >>> 6) &&& 0x3F),
     0x80 ||| (n &&& 0x3F)]
  else
    [0xF0 ||| (n >>> 18), 0x80 ||| ((n >>> 12) &&& 0x3F),
     0x80 ||| ((n >>> 6) &&& 0x3F), 0x80 ||| (n &&& 0x3F)]

/-- UTF-8 bytes of a string. -/
def strBytes (s : String) : List Nat := s.data.flatMap utf8Bytes

/-- The `hashlib.sha256(s.encode()).hexdigest()`. -/
def hexOfString (s : String) : String := hexOfBytes (strBytes s)

end SHA256

/-! ## Canonical JSON (models Python's `json.dumps(..., sort_keys=True)`
with default separators and `ensure_ascii=True`) -/

namespace Json

/-- Four lowercase hex digits. -/
def hex4 (n : Nat) : String :=
  String.mk [SHA256.hexDigit ((n >>> 12) &&& 15),
             SHA256.hexDigit ((n >>> 8) &&& 15),
             SHA256.hexDigit ((n >>> 4) &&& 15),
             SHA256.hexDigit (n &&& 15)]

/-- The `\uXXXX` escape of one code point (surrogate pair when outside the
BMP), as emitted by `json.dumps` with `ensure_ascii=True`. -/
def uEscape (n : Nat) : String :=
  if n < 0x10000 then "\\u" ++ hex4 n
  else
    let m := n - 0x10000
    "\\u" ++ hex4 (0xD800 + (m >>> 10)) ++ "\\u" ++ hex4 (0xDC00 + (m &&& 0x3FF))

/-- Escape of one character inside a JSON string literal. -/
def escapeChar (c : Char) : String :=
  if c = '"' then "\\\""
  else if c = '\\' then "\\\\"
  else if c = '\x08' then "\\b"
  else if c = '\x0c' then "\\f"
  else if c = '\n' then "\\n"
  else if c = '\x0d' then "\\r"
  else if c = '\t' then "\\t"
  else if c.toNat < 0x20 ∨ c.toNat > 0x7e then uEscape c.toNat
  else String.singleton c

/-- JSON string literal for `s`. -/
def str (s : String) : String :=
  "\"" ++ (s.data.map escapeChar).foldl (· ++ ·) "" ++ "\""

/-- JSON rendering of an optional string (`None` → `null`). -/
def optStr : Option String → String
  | none => "null"
  | some s => str s

end Json

/-! ## Audit-record signing -/

/-- The `InMemoryStorageAdapter._sign_record` from
`amg/adapters/in_memory.py`: the exact `json.dumps(..., sort_keys=True)`
text that is hashed.  `sort_keys` orders the seven keys as
agent_id, audit_id, decision, memory_id, operation, reason,
timestamp. -/
def storageSignPayload (r : AMG.AuditRecord) : String :=
  "\x7b" ++ Json.str "agent_id" ++ ": " ++ Json.str r.agent_id ++ ", " ++
  Json.str "audit_id" ++ ": " ++ Json.str r.audit_id ++ ", " ++
  Json.str "decision" ++ ": " ++ Json.str r.decision ++ ", " ++
  Json.str "memory_id" ++ ": " ++ Json.optStr r.memory_id ++ ", " ++
  Json.str "operation" ++ ": " ++ Json.str r.operation ++ ", " ++
  Json.str "reason" ++ ": " ++ Json.str r.reason ++ ", " ++
  Json.str "timestamp" ++ ": " ++ Json.str r.timestamp ++ "\x7d"

/-- The `InMemoryStorageAdapter._sign_record`: SHA-256 hex digest of the
payload. -/
def storageSign (r : AMG.AuditRecord) : String :=
  SHA256.hexOfString (storageSignPayload r)

/-- The `KillSwitch._sign_record` from `amg/kill_switch.py`: note that this
payload has six keys only — `memory_id` is NOT included. -/
def killSwitchSignPayload (r : AMG.AuditRecord) : String :=
  "\x7b" ++ Json.str "agent_id" ++ ": " ++ Json.str r.agent_id ++ ", " ++
  Json.str "audit_id" ++ ": " ++ Json.str r.audit_id ++ ", " ++
  Json.str "decision" ++ ": " ++ Json.str r.decision ++ ", " ++
  Json.str "operation" ++ ": " ++ Json.str r.operation ++ ", " ++
  Json.str "reason" ++ ": " ++ Json.str r.reason ++ ", " ++
  Json.str "timestamp" ++ ": " ++ Json.str r.timestamp ++ "\x7d"

/-- The `KillSwitch._sign_record`: SHA-256 hex digest of its payload. -/
def killSwitchSign (r : AMG.AuditRecord) : String :=
  SHA256.hexOfString (killSwitchSignPayload r)

/-- Modelled from the spec's words (§4.1/§4.5): the canonical JSON
(keys sorted ascending, ISO-8601 timestamps) of exactly the fields
`{audit_id, timestamp, agent_id, operation, memory_id, decision,
reason}` of an audit record; the claimed signature is its SHA-256 hex
digest. -/
def specCoreJson (r : AMG.AuditRecord) : String :=
  "\x7b" ++ Json.str "agent_id" ++ ": " ++ Json.str r.agent_id ++ ", " ++
  Json.str "audit_id" ++ ": " ++ Json.str r.audit_id ++ ", " ++
  Json.str "decision" ++ ": " ++ Json.str r.decision ++ ", " ++
  Json.str "memory_id" ++ ": " ++ Json.optStr r.memory_id ++ ", " ++
  Json.str "operation" ++ ": " ++ Json.str r.operation ++ ", " ++
  Json.str "reason" ++ ": " ++ Json.str r.reason ++ ", " ++
  Json.str "timestamp" ++ ": " ++ Json.str r.timestamp ++ "\x7d"

/-- The spec's claimed signature of an audit record. -/
def specSign (r : AMG.AuditRecord) : String :=
  SHA256.hexOfString (specCoreJson r)

/-! ## Kill-switch transitions (`amg/kill_switch.py`) -/

/-- The `KillSwitch.disable`: set the agent's state to `disabled` and emit a
signed audit record.  Fresh `audit_id`/`timestamp` are explicit
parameters. -/
def KillSwitch.disable (ks : KillSwitch) (agent_id reason actor_id : String)
    (aid ts : String) : AuditRecord × KillSwitch :=
  let a0 : AuditRecord :=
    { audit_id := aid, timestamp := ts, agent_id := agent_id,
      operation := "disable", policy_version := "1.0.0",
      decision := "allowed", reason := reason, actor_id := actor_id,
      metadata := [("state", .str "disabled"),
                   ("disabled_by", .str actor_id)] }
  let a := { a0 with signature := killSwitchSign a0 }
  (a, { agent_states := dictSet ks.agent_states agent_id .disabled,
        audit_log := dictSet ks.audit_log a.audit_id a })

/-- The `KillSwitch.freeze_writes`: set the agent's state to `frozen` and
emit a signed audit record. -/
def KillSwitch.freeze_writes (ks : KillSwitch)
    (agent_id reason actor_id : String) (aid ts : String) :
    AuditRecord × KillSwitch :=
  let a0 : AuditRecord :=
    { audit_id := aid, timestamp := ts, agent_id := agent_id,
      operation := "freeze", policy_version := "1.0.0",
      decision := "allowed", reason := reason, actor_id := actor_id,
      metadata := [("state", .str "frozen"),
                   ("writes_blocked", .bool true),
                   ("reads_allowed", .bool true)] }
  let a := { a0 with signature := killSwitchSign a0 }
  (a, { agent_states := dictSet ks.agent_states agent_id .frozen,
        audit_log := dictSet ks.audit_log a.audit_id a })

/-- The `KillSwitch.enable`: set the agent's state to `enabled` and emit a
signed audit record. -/
def KillSwitch.enable (ks : KillSwitch) (agent_id actor_id : String)
    (aid ts : String) : AuditRecord × KillSwitch :=
  let a0 : AuditRecord :=
    { audit_id := aid, timestamp := ts, agent_id := agent_id,
      operation := "enable", policy_version := "1.0.0",
      decision := "allowed", reason := "agent_reenabled",
      actor_id := actor_id, metadata := [("state", .str "enabled")] }
  let a := { a0 with signature := killSwitchSign a0 }
  (a, { agent_states := dictSet ks.agent_states agent_id .enabled,
        audit_log := dictSet ks.audit_log a.audit_id a })

/-! ## In-memory storage adapter (`amg/adapters/in_memory.py`) -/

/-- The query-filters dictionary, with the keys the adapter consults. -/
structure Filters where
  memory_types : Option (List String) := none
  sensitivity : Option (List String) := none
  scope : Option String := none
  vector : Option (List ℚ) := none
deriving DecidableEq, Repr

/-- Adapter state: the insertion-ordered `_memories` dict and the
append-only `_audit_log` list. -/
structure Store where
  memories : List (String × Memory) := []
  audit_log : List AuditRecord := []
deriving Repr

/-- The `InMemoryStorageAdapter._passes_filters`. -/
def passes_filters (m : Memory) (f : Filters) : Bool :=
  (match f.memory_types with
   | some ts => ts.contains m.policy.memory_type.value
   | none => true) &&
  (match f.sensitivity with
   | some ss => ss.contains m.policy.sensitivity.value
   | none => true) &&
  (match f.scope with
   | some sc => m.policy.scope.value == sc
   | none => true)

/-- The `InMemoryStorageAdapter._can_read_sensitivity` (source: always
`True`). -/
def can_read_sensitivity (_agent_id : String) (_m : Memory) : Bool := true

/-- The `InMemoryStorageAdapter._create_denied_audit` (signing included; the
caller appends the record to the log). -/
def mkDeniedAudit (agent_id operation : String) (memory_id : Option String)
    (reason : String) (aid ts : String) : AuditRecord :=
  let a0 : AuditRecord :=
    { audit_id := aid, timestamp := ts, agent_id := agent_id,
      operation := operation, memory_id := memory_id,
      policy_version := "1.0.0", decision := "denied", reason := reason,
      actor_id := agent_id }
  { a0 with signature := storageSign a0 }

/-- The `InMemoryStorageAdapter.write`.  The two `PolicyEnforcementError`
raises are modelled as `Except.error`. -/
def writeOp (s : Store) (memory : Memory) (request_id : String)
    (aid ts : String) : Except String (AuditRecord × Store) :=
  if memory.agent_id = "" then
    .error "Memory must have agent_id"
  else if memory.policy.ttl_seconds ≤ 0 then
    .error "Invalid TTL"
  else
    let a0 : AuditRecord :=
      { audit_id := aid, timestamp := ts, agent_id := memory.agent_id,
        request_id := request_id, operation := "write",
        memory_id := some memory.memory_id, policy_version := "1.0.0",
        decision := "allowed", reason := "policy_enforcement_passed",
        actor_id := memory.agent_id,
        metadata := [("memory_type", .str memory.policy.memory_type.value),
                     ("sensitivity", .str memory.policy.sensitivity.value),
                     ("scope", .str memory.policy.scope.value),
                     ("ttl_seconds", .int memory.policy.ttl_seconds)] }
    let a := { a0 with signature := storageSign a0 }
    .ok (a, { memories := dictSet s.memories memory.memory_id memory,
              audit_log := s.audit_log ++ [a] })

/-- The `InMemoryStorageAdapter.read`.  `now` stands for the
`datetime.utcnow()` consulted by `Memory.is_expired`. -/
def readOp (s : Store) (memory_id agent_id : String) (now : Int)
    (aid ts : String) : (Option Memory × AuditRecord) × Store :=
  match s.memories.find? (fun p => p.1 == memory_id) with
  | none =>
      let a := mkDeniedAudit agent_id "read" (some memory_id)
        "memory_not_found" aid ts
      ((none, a), { s with audit_log := s.audit_log ++ [a] })
  | some (_, m) =>
      if m.is_expired now then
        let a := mkDeniedAudit agent_id "read" (some memory_id)
          "memory_expired" aid ts
        ((none, a), { s with audit_log := s.audit_log ++ [a] })
      else if m.policy.scope = .agent ∧ m.agent_id ≠ agent_id then
        let a := mkDeniedAudit agent_id "read" (some memory_id)
          "scope_isolation_violation" aid ts
        ((none, a), { s with audit_log := s.audit_log ++ [a] })
      else if ¬ m.policy.allow_read then
        let a := mkDeniedAudit agent_id "read" (some memory_id)
          "read_not_allowed" aid ts
        ((none, a), { s with audit_log := s.audit_log ++ [a] })
      else
        let a0 : AuditRecord :=
          { audit_id := aid, timestamp := ts, agent_id := agent_id,
            operation := "read", memory_id := some memory_id,
            policy_version := "1.0.0", decision := "allowed",
            reason := "policy_checks_passed", actor_id := agent_id,
            metadata := [("scope", .str m.policy.scope.value),
                         ("sensitivity", .str m.policy.sensitivity.value)] }
        let a := { a0 with signature := storageSign a0 }
        ((some m, a), { s with audit_log := s.audit_log ++ [a] })

/-- The `InMemoryStorageAdapter.delete` (the `MemoryNotFoundError` raise is
modelled as `Except.error`). -/
def deleteOp (s : Store) (memory_id actor_id reason : String)
    (aid ts : String) : Except String (AuditRecord × Store) :=
  match s.memories.find? (fun p => p.1 == memory_id) with
  | none => .error "Memory not found"
  | some (_, m) =>
      let a0 : AuditRecord :=
        { audit_id := aid, timestamp := ts, agent_id := m.agent_id,
          operation := "delete", memory_id := some memory_id,
          policy_version := "1.0.0", decision := "allowed",
          reason := reason, actor_id := actor_id,
          metadata := [("deletion_reason", .str reason)] }
      let a := { a0 with signature := storageSign a0 }
      .ok (a, { memories := s.memories.filter (fun p => !(p.1 == memory_id)),
                audit_log := s.audit_log ++ [a] })

/-- Sum of pairwise products, as computed by
`sum(a * b for a, b in zip(v, w))`. -/
def dot (v w : List ℚ) : ℚ :=
  (v.zip w).foldl (fun acc p => acc + p.1 * p.2) 0

/-- The sort key computed by `get_sim` inside
`InMemoryStorageAdapter.query`, with floats modelled exactly.  The
source key is the cosine value `d / √(s₁·s₂)` (sentinel `-1.0` for a
missing/empty vector, a dimension mismatch, or a zero norm); this
embedding represents each key by its image under the strictly
increasing map `x ↦ sign(x)·x²`, i.e. `sign(d)·d²/(s₁·s₂)`, which is an
exact rational.  The map fixes `-1`, so every comparison the sort makes
(including sentinel-versus-genuine comparisons) has the same outcome as
in the source. -/
def simVal (query_vector : List ℚ) (m : Memory) : ℚ :=
  match m.vector with
  | none => -1
  | some v =>
    if v = [] then -1
    else if v.length ≠ query_vector.length then -1
    else
      let d := dot v query_vector
      let s1 := dot v v
      let s2 := dot query_vector query_vector
      if s1 = 0 ∨ s2 = 0 then -1
      else if d < 0 then -(d * d) / (s1 * s2) else (d * d) / (s1 * s2)

/-- The `results.sort(key=get_sim, reverse=True)`: CPython's sort is
stable, and `reverse=True` keeps equal-keyed elements in their original
relative order; `List.mergeSort` with a `≥`-comparator has exactly
these semantics. -/
def rankSort (qv : List ℚ) (l : List Memory) : List Memory :=
  l.mergeSort (fun a b => decide (simVal qv b ≤ simVal qv a))

/-- The retrieval-guard filter pass of `InMemoryStorageAdapter.query`:
the memories (in insertion order) that pass the filters, are not
expired, respect agent-scope isolation, pass the sensitivity check, and
allow reads. -/
def surviving (s : Store) (f : Filters) (agent_id : String) (now : Int) :
    List Memory :=
  (s.memories.map (fun p => p.2)).filter (fun m =>
    passes_filters m f && !(m.is_expired now) &&
    !(m.policy.scope == .agent && m.agent_id != agent_id) &&
    can_read_sensitivity agent_id m && m.policy.allow_read)

/-- A deterministic stand-in for Python's `str(filters)` used in the
query audit metadata (no claim depends on its exact text). -/
def filtersRepr (f : Filters) : String :=
  reprStr (f.memory_types, f.sensitivity, f.scope, f.vector)

/-- The `InMemoryStorageAdapter.query`. -/
def queryOp (s : Store) (f : Filters) (agent_id : String) (now : Int)
    (aid ts : String) : (List Memory × AuditRecord) × Store :=
  let results := surviving s f agent_id now
  let ranked :=
    match f.vector with
    | some qv => if qv = [] ∨ results = [] then results else rankSort qv results
    | none => results
  let a0 : AuditRecord :=
    { audit_id := aid, timestamp := ts, agent_id := agent_id,
      operation := "query", memory_id := none, policy_version := "1.0.0",
      decision := "allowed", reason := "query_executed_with_filters",
      actor_id := agent_id,
      metadata := [("total_records_examined", .int s.memories.length),
                   ("filtered_count", .int (s.memories.length - results.length)),
                   ("returned_count", .int ranked.length),
                   ("filters", .str (filtersRepr f))] }
  let a := { a0 with signature := storageSign a0 }
  ((ranked, a), { s with audit_log := s.audit_log ++ [a] })

/-! ## Governed context builder (`amg/context.py`) -/

/-- The `GovernedContext` from `amg/context.py`. -/
structure GovernedContext where
  agent_id : String
  request_id : String
  memories : List Memory
  metadata : List (String × MetaVal) := []
  audit_id : String := ""
deriving Repr

/-- The two exception types `_build_context` can raise itself. -/
inductive BuildError where
  | policyEnforcement (msg : String)
  | agentDisabled (msg : String)
deriving DecidableEq, Repr

/-- Python's `str.split()` whitespace test (`Py_UNICODE_ISSPACE`): the
29 code points `chr(c).isspace()` accepts — U+0009..U+000D,
U+001C..U+001F, U+0020, U+0085, U+00A0, U+1680, U+2000..U+200A,
U+2028, U+2029, U+202F, U+205F and U+3000. -/
def pyIsSpace (c : Char) : Bool :=
  let n := c.toNat
  (9 ≤ n && n ≤ 13) || (28 ≤ n && n ≤ 31) || n == 32 ||
  n == 133 || n == 160 || n == 5760 ||
  (8192 ≤ n && n ≤ 8202) || n == 8232 || n == 8233 ||
  n == 8239 || n == 8287 || n == 12288

/-- Count maximal runs of non-whitespace characters; `inWord` records
whether the previous character was part of a word. -/
def countWords : List Char → Bool → Nat
  | [], _ => 0
  | c :: rest, inWord =>
      if pyIsSpace c then countWords rest false
      else (if inWord then 0 else 1) + countWords rest true

/-- The `len(content.split())`: the number of maximal whitespace-separated
words. -/
def wordCount (s : String) : Nat :=
  countWords s.data false

/-- The loop body of `GovernedContextBuilder._enforce_token_budget`,
with running total `token_count`: include an item only while the
running total stays within `max_tokens`, and stop (`break`) at the
first item that would exceed it. -/
def token_budget_loop (max_tokens : Int) :
    List Memory → Int → List Memory × Int
  | [], token_count => ([], token_count)
  | m :: rest, token_count =>
      let content_tokens : Int := wordCount m.content + 10
      if token_count + content_tokens ≤ max_tokens then
        let r := token_budget_loop max_tokens rest
          (token_count + content_tokens)
        (m :: r.1, r.2)
      else
        ([], token_count)

/-- The `GovernedContextBuilder._enforce_token_budget`: walk the list in
returned order starting from a zero running total; return the included
prefix and the tokens counted for it. -/
def enforce_token_budget (memories : List Memory) (max_tokens : Int) :
    List Memory × Int :=
  token_budget_loop max_tokens memories 0

/-- Python slicing `l[:n]`, including the negative-`n` case. -/
def pySliceTo {α : Type} (l : List α) (n : Int) : List α :=
  if n ≥ 0 then l.take n.toNat else l.take (l.length - n.natAbs)

/-- The `GovernedContextBuilder._build_context` over the in-memory adapter.
The raised errors become `Except.error`; on error no adapter call has
happened, so the store is not part of the error result.  The builder
mutates the metadata of the (aliased) audit record that
`queryOp` already appended to the store's log; the returned `Store`
reflects that mutation. -/
def build_context (storage : Store) (ks : KillSwitch)
    (agent_id request_id : String) (f : Filters)
    (max_items max_tokens : Int) (now : Int) (aid ts : String) :
    Except BuildError (GovernedContext × Store) :=
  if agent_id = "" then
    .error (.policyEnforcement "agent_id required")
  else
    let chk := ks.check_allowed agent_id .read
    if ¬ chk.1 then
      .error (.agentDisabled ("Agent blocked: " ++ chk.2.getD "None"))
    else
      let r := queryOp storage f agent_id now aid ts
      let memories := r.1.1
      let audit := r.1.2
      let s1 := r.2
      let tb := enforce_token_budget memories max_tokens
      let truncated := tb.1
      let token_count := tb.2
      let md1 :=
        if truncated.length < memories.length then
          dictSet (dictSet audit.metadata "truncated_by_token_budget"
            (.bool true)) "tokens_dropped" (.int (token_count - max_tokens))
        else audit.metadata
      let md2 :=
        dictSet (dictSet (dictSet md1 "requested_by_agent"
          (.str agent_id)) "token_count" (.int token_count)) "request_id"
          (.str request_id)
      let audit2 := { audit with metadata := md2 }
      let s2 := { s1 with audit_log := s1.audit_log.dropLast ++ [audit2] }
      .ok ({ agent_id := agent_id,
             request_id := request_id,
             memories := pySliceTo truncated max_items,
             metadata :=
               [("token_count", .int token_count),
                ("returned_count", .int (pySliceTo truncated max_items).length),
                ("filtered_count", dictGetD audit2.metadata "filtered_count" (.int 0)),
                ("total_examined", dictGetD audit2.metadata "total_records_examined" (.int 0)),
                ("policy_version", .str "1.0.0"),
                ("audit_id", .str audit2.audit_id)],
             audit_id := audit2.audit_id }, s2)

/-- The store lookup the adapter performs for `read`/`delete`. -/
def lookupMem (s : Store) (memory_id : String) : Option (String × Memory) :=
  s.memories.find? (fun p => p.1 == memory_id)

/-- The token estimate the builder uses for one memory:
`len(content.split()) + 10`. -/
def tokenCount (m : Memory) : Int := wordCount m.content + 10

/-- Total token estimate of a list of memories. -/
def tokenSum (l : List Memory) : Int := (l.map tokenCount).sum
end AMG

/-! ## Fixtures for witnesses and counterexamples -/

namespace AMGFix

open AMG

/-- A benign default policy (long-term, 1-day TTL, non-PII, agent
scope). -/
def pol0 : MemoryPolicy :=
  { memory_type := .long_term, ttl_seconds := 86400,
    sensitivity := .non_pii, scope := .agent }

/-- A stored memory owned by agent `"ag"`. -/
def memA : Memory :=
  { memory_id := "A", agent_id := "ag", content := "alpha",
    vector := some [1, 0], policy := pol0, created_at := 0,
    expires_at := 86400 }

/-- A second memory with the same embedding vector as `memA` but a later
`created_at`. -/
def memB : Memory :=
  { memory_id := "B", agent_id := "ag", content := "beta",
    vector := some [1, 0], policy := pol0, created_at := 100,
    expires_at := 86500 }

/-- A store holding `memA` then `memB` in insertion order. -/
def storeAB : Store := { memories := [("A", memA), ("B", memB)] }

/-- A memory whose content is three whitespace-separated words, so its
token estimate is 13. -/
def memT : Memory :=
  { memory_id := "T", agent_id := "ag", content := "one two three",
    policy := pol0, created_at := 0, expires_at := 86400 }

/-- A store holding only `memT`. -/
def storeT : Store := { memories := [("T", memT)] }

/-- Spec scenario 5, first memory: vector `[1, 0]`. -/
def memV1 : Memory :=
  { memory_id := "v1", agent_id := "ag", content := "c1",
    vector := some [1, 0], policy := pol0, created_at := 0,
    expires_at := 86400 }

/-- Spec scenario 5, second memory: vector `[0, 1]`. -/
def memV2 : Memory :=
  { memory_id := "v2", agent_id := "ag", content := "c2",
    vector := some [0, 1], policy := pol0, created_at := 1,
    expires_at := 86401 }

/-- Spec scenario 5, third memory: vector `[0.7, 0.7]`. -/
def memV3 : Memory :=
  { memory_id := "v3", agent_id := "ag", content := "c3",
    vector := some [(7 : ℚ)/10, (7 : ℚ)/10], policy := pol0,
    created_at := 2, expires_at := 86402 }

/-- A store holding the three scenario-5 memories in insertion order. -/
def storeV : Store :=
  { memories := [("v1", memV1), ("v2", memV2), ("v3", memV3)] }

end AMGFix

/-! ## Helper lemmas -/

namespace AMG

theorem signPayload_ignores_signature (r : AuditRecord) (sig : String) :
    storageSignPayload { r with signature := sig } = storageSignPayload r :=
  rfl

theorem storageSign_eq_specSign (r : AuditRecord) :
    storageSign r = specSign r :=
  rfl

theorem dot_foldl_shift (l : List (ℚ × ℚ)) (c : ℚ) :
    l.foldl (fun acc p => acc + p.1 * p.2) c =
    c + l.foldl (fun acc p => acc + p.1 * p.2) 0 := by
  induction l generalizing c with
  | nil => simp
  | cons p rest ih =>
    simp only [List.foldl_cons]
    rw [ih (c + p.1 * p.2), ih (0 + p.1 * p.2)]
    ring

theorem dot_nil_left (w : List ℚ) : dot [] w = 0 := rfl

theorem dot_nil_right (v : List ℚ) : dot v [] = 0 := by
  cases v <;> rfl

theorem dot_cons (a b : ℚ) (v w : List ℚ) :
    dot (a :: v) (b :: w) = a * b + dot v w := by
  simp only [dot, List.zip_cons_cons, List.foldl_cons]
  rw [dot_foldl_shift]
  ring

theorem dot_self_nonneg (v : List ℚ) : 0 ≤ dot v v := by
  induction v with
  | nil => simp [dot_nil_left]
  | cons a v ih =>
    rw [dot_cons]
    nlinarith [mul_self_nonneg a]

/-- Cauchy–Schwarz for the adapter's dot product. -/
theorem dot_sq_le_mul (v w : List ℚ) :
    dot v w * dot v w ≤ dot v v * dot w w := by
  induction v generalizing w with
  | nil => simp [dot_nil_left]
  | cons a v ih =>
    cases w with
    | nil => simp [dot_nil_right]
    | cons b w =>
      simp only [dot_cons]
      have h1 := ih w
      have h2 := dot_self_nonneg v
      have h3 := dot_self_nonneg w
      rcases eq_or_lt_of_le h3 with hq | hq
      · have hS : dot v w = 0 := by nlinarith [mul_self_nonneg (dot v w)]
        rw [hS, ← hq]
        nlinarith [mul_nonneg h2 (mul_self_nonneg b)]
      · have key : 0 ≤ (b * b + dot w w) *
            (dot v v * dot w w - dot v w * dot v w) :=
          mul_nonneg (by nlinarith [mul_self_nonneg b]) (by linarith)
        have hQd : 0 ≤ dot w w *
            ((a * a + dot v v) * (b * b + dot w w) -
              (a * b + dot v w) * (a * b + dot v w)) := by
          nlinarith [sq_nonneg (a * dot w w - b * dot v w), key]
        nlinarith [hQd, hq]

/-- The similarity key is never below the sentinel value `-1`. -/
theorem simVal_ge_neg_one (qv : List ℚ) (m : Memory) :
    -1 ≤ simVal qv m := by
  unfold simVal
  split
  · exact le_refl _
  · rename_i v heq
    dsimp only
    split_ifs with h1 h2 h3 h4
    · exact le_refl _
    · exact le_refl _
    · exact le_refl _
    · have hs1 : 0 ≤ dot v v := dot_self_nonneg v
      have hs2 : 0 ≤ dot qv qv := dot_self_nonneg qv
      have hs1p : 0 < dot v v := by
        rcases eq_or_lt_of_le hs1 with h | h
        · exact absurd (Or.inl h.symm) h3
        · exact h
      have hs2p : 0 < dot qv qv := by
        rcases eq_or_lt_of_le hs2 with h | h
        · exact absurd (Or.inr h.symm) h3
        · exact h
      have hprod : 0 < dot v v * dot qv qv := mul_pos hs1p hs2p
      have hcs := dot_sq_le_mul v qv
      have hx : dot v qv * dot v qv / (dot v v * dot qv qv) ≤ 1 :=
        (div_le_one hprod).mpr hcs
      rw [neg_div]
      linarith
    · have hs1 : 0 ≤ dot v v := dot_self_nonneg v
      have hs2 : 0 ≤ dot qv qv := dot_self_nonneg qv
      have : (0:ℚ) ≤ dot v qv * dot v qv / (dot v v * dot qv qv) :=
        div_nonneg (mul_self_nonneg _) (mul_nonneg hs1 hs2)
      linarith

theorem token_budget_loop_spec (mt : Int) (l : List Memory) (tc : Int) :
    (l.take (token_budget_loop mt l tc).1.length =
        (token_budget_loop mt l tc).1)
    ∧ ((token_budget_loop mt l tc).2 =
        tc + tokenSum (token_budget_loop mt l tc).1)
    ∧ ((token_budget_loop mt l tc).1 ≠ [] →
        (token_budget_loop mt l tc).2 ≤ mt)
    ∧ ((token_budget_loop mt l tc).1 = [] →
        (token_budget_loop mt l tc).2 = tc)
    ∧ (∀ hd tl, l.drop (token_budget_loop mt l tc).1.length = hd :: tl →
        mt < (token_budget_loop mt l tc).2 + tokenCount hd) := by
  induction l generalizing tc with
  | nil => simp [token_budget_loop, tokenSum]
  | cons m rest ih =>
    by_cases h : tc + ((wordCount m.content : Int) + 10) ≤ mt
    · have e : token_budget_loop mt (m :: rest) tc =
          (m :: (token_budget_loop mt rest
              (tc + ((wordCount m.content : Int) + 10))).1,
           (token_budget_loop mt rest
              (tc + ((wordCount m.content : Int) + 10))).2) := by
        simp [token_budget_loop, if_pos h]
      obtain ⟨ih1, ih2, ih3, ih4, ih5⟩ :=
        ih (tc + ((wordCount m.content : Int) + 10))
      rw [e]
      refine ⟨?_, ?_, ?_, ?_, ?_⟩
      · simpa using ih1
      · simp only [tokenSum, List.map_cons, List.sum_cons, tokenCount]
        simp only [tokenSum] at ih2
        omega
      · intro _
        by_cases hr : (token_budget_loop mt rest
            (tc + ((wordCount m.content : Int) + 10))).1 = []
        · have := ih4 hr
          omega
        · exact ih3 hr
      · intro habs
        exact absurd habs (by simp)
      · intro hd tl hdrop
        simp only [List.length_cons, List.drop_succ_cons] at hdrop
        exact ih5 hd tl hdrop
    · have e : token_budget_loop mt (m :: rest) tc = ([], tc) := by
        simp [token_budget_loop, if_neg h]
      rw [e]
      refine ⟨by simp, by simp [tokenSum], by simp, fun _ => rfl, ?_⟩
      intro hd tl hdrop
      simp only [List.length_nil, List.drop_zero, List.cons.injEq] at hdrop
      rw [← hdrop.1]
      simp only [tokenCount]
      omega

end AMG


/-! ## Claim theorems -/

section Claims

open AMG

/-- Claim C2: `PolicyEngine.evaluate_write` applies its checks in order —
agent ownership, positive TTL, TTL ceiling by sensitivity/scope (with
the four configured ceilings 86400, 604800, 2592000, 7776000),
`allow_write` — returning the first matching denial, and otherwise
allows with reason `all_policy_checks_passed`. -/
theorem claim_C2_evaluate_write_order (m : Memory) (caller : String) :
    (PolicyEngine.get_max_ttl .pii .agent = 86400
      ∧ PolicyEngine.get_max_ttl .pii .tenant = 604800
      ∧ PolicyEngine.get_max_ttl .non_pii .agent = 2592000
      ∧ PolicyEngine.get_max_ttl .non_pii .tenant = 7776000)
    ∧ (m.agent_id ≠ caller →
        (PolicyEngine.evaluate_write m caller).decision = .denied
        ∧ (PolicyEngine.evaluate_write m caller).reason =
            "agent_ownership_violation")
    ∧ (m.agent_id = caller → m.policy.ttl_seconds ≤ 0 →
        (PolicyEngine.evaluate_write m caller).decision = .denied
        ∧ (PolicyEngine.evaluate_write m caller).reason = "invalid_ttl")
    ∧ (m.agent_id = caller → 0 < m.policy.ttl_seconds →
        m.policy.ttl_seconds >
          PolicyEngine.get_max_ttl m.policy.sensitivity m.policy.scope →
        (PolicyEngine.evaluate_write m caller).decision = .denied
        ∧ (PolicyEngine.evaluate_write m caller).reason =
            "ttl_exceeds_policy")
    ∧ (m.agent_id = caller → 0 < m.policy.ttl_seconds →
        m.policy.ttl_seconds ≤
          PolicyEngine.get_max_ttl m.policy.sensitivity m.policy.scope →
        m.policy.allow_write = false →
        (PolicyEngine.evaluate_write m caller).decision = .denied
        ∧ (PolicyEngine.evaluate_write m caller).reason =
            "write_not_allowed")
    ∧ (m.agent_id = caller → 0 < m.policy.ttl_seconds →
        m.policy.ttl_seconds ≤
          PolicyEngine.get_max_ttl m.policy.sensitivity m.policy.scope →
        m.policy.allow_write = true →
        (PolicyEngine.evaluate_write m caller).decision = .allowed
        ∧ (PolicyEngine.evaluate_write m caller).reason =
            "all_policy_checks_passed") := by
  refine ⟨⟨rfl, rfl, rfl, rfl⟩, ?_, ?_, ?_, ?_, ?_⟩
  · intro h1
    simp only [PolicyEngine.evaluate_write, if_pos h1]
    constructor <;> trivial
  · intro h1 h2
    have hne : ¬ m.agent_id ≠ caller := by simp [h1]
    simp only [PolicyEngine.evaluate_write, if_neg hne, if_pos h2]
    constructor <;> trivial
  · intro h1 h2 h3
    have hne : ¬ m.agent_id ≠ caller := by simp [h1]
    have hp : ¬ m.policy.ttl_seconds ≤ 0 := by omega
    simp only [PolicyEngine.evaluate_write, if_neg hne, if_neg hp,
      if_pos h3]
    constructor <;> trivial
  · intro h1 h2 h3 h4
    have hne : ¬ m.agent_id ≠ caller := by simp [h1]
    have hp : ¬ m.policy.ttl_seconds ≤ 0 := by omega
    have hc : ¬ m.policy.ttl_seconds >
        PolicyEngine.get_max_ttl m.policy.sensitivity m.policy.scope := by
      omega
    have hw : ¬ (m.policy.allow_write = true) := by simp [h4]
    simp only [PolicyEngine.evaluate_write, if_neg hne, if_neg hp,
      if_neg hc, if_pos hw]
    constructor <;> trivial
  · intro h1 h2 h3 h4
    have hne : ¬ m.agent_id ≠ caller := by simp [h1]
    have hp : ¬ m.policy.ttl_seconds ≤ 0 := by omega
    have hc : ¬ m.policy.ttl_seconds >
        PolicyEngine.get_max_ttl m.policy.sensitivity m.policy.scope := by
      omega
    have hw : ¬ ¬ (m.policy.allow_write = true) := by simp [h4]
    simp only [PolicyEngine.evaluate_write, if_neg hne, if_neg hp,
      if_neg hc, if_neg hw]
    constructor <;> trivial

/-- Witness for C2: a concrete allowed write (owner writes a memory with
an in-range TTL and `allow_write = true`). -/
theorem claim_C2_witness :
    (PolicyEngine.evaluate_write AMGFix.memA "ag").decision = .allowed
    ∧ (PolicyEngine.evaluate_write AMGFix.memA "ag").reason =
        "all_policy_checks_passed" :=
  (claim_C2_evaluate_write_order AMGFix.memA "ag").2.2.2.2.2
    rfl (by decide) (by decide) rfl

/-- Claim C3: `KillSwitch.check_allowed` follows the state table — an
unknown agent defaults to `enabled`; `enabled` allows read, write and
query; `frozen` allows read and query but denies write with
`agent_frozen_write_denied`; `disabled` denies everything with
`agent_disabled`. -/
theorem claim_C3_check_allowed_table (ks : KillSwitch) (agent : String)
    (op : OperationType) :
    (ks.agent_states.find? (fun p => p.1 == agent) = none →
      dictGetD ks.agent_states agent .enabled = .enabled)
    ∧ (dictGetD ks.agent_states agent .enabled = .enabled →
        ks.check_allowed agent op = (true, none))
    ∧ (dictGetD ks.agent_states agent .enabled = .frozen →
        ks.check_allowed agent .read = (true, none)
        ∧ ks.check_allowed agent .query = (true, none)
        ∧ ks.check_allowed agent .write =
            (false, some "agent_frozen_write_denied"))
    ∧ (dictGetD ks.agent_states agent .enabled = .disabled →
        ks.check_allowed agent op = (false, some "agent_disabled")) := by
  refine ⟨?_, ?_, ?_, ?_⟩ <;> intro h
  · simp [dictGetD, h]
  · cases op <;> simp_all [KillSwitch.check_allowed]
  · simp_all [KillSwitch.check_allowed]
  · cases op <;> simp_all [KillSwitch.check_allowed]

/-- Witness for C3: a frozen agent is denied writes but allowed reads,
and an unseen agent is allowed everything. -/
theorem claim_C3_witness :
    (KillSwitch.check_allowed { agent_states := [("f", .frozen)] } "f"
        .write = (false, some "agent_frozen_write_denied"))
    ∧ KillSwitch.check_allowed {} "new" .read = (true, none) :=
  ⟨((claim_C3_check_allowed_table { agent_states := [("f", .frozen)] }
      "f" .write).2.2.1 (by decide)).2.2,
   (claim_C3_check_allowed_table {} "new" .read).2.1 (by decide)⟩

/-- Claim C1: the adapter's `read` returns `(none, denied record)`
exactly when the memory is missing, expired, violates agent-scope
isolation, or has `allow_read = false` (with reason
`scope_isolation_violation` in the scope case), and otherwise returns
the memory with an allowed record. -/
theorem claim_C1_read_decision_table (s : Store) (mid caller : String)
    (now : Int) (aid ts : String) :
    (lookupMem s mid = none →
      (readOp s mid caller now aid ts).1.1 = none
      ∧ (readOp s mid caller now aid ts).1.2.decision = "denied"
      ∧ (readOp s mid caller now aid ts).1.2.reason = "memory_not_found")
    ∧ (∀ k m, lookupMem s mid = some (k, m) → m.is_expired now = true →
        (readOp s mid caller now aid ts).1.1 = none
        ∧ (readOp s mid caller now aid ts).1.2.decision = "denied"
        ∧ (readOp s mid caller now aid ts).1.2.reason = "memory_expired")
    ∧ (∀ k m, lookupMem s mid = some (k, m) → m.is_expired now = false →
        m.policy.scope = .agent → m.agent_id ≠ caller →
        (readOp s mid caller now aid ts).1.1 = none
        ∧ (readOp s mid caller now aid ts).1.2.decision = "denied"
        ∧ (readOp s mid caller now aid ts).1.2.reason =
            "scope_isolation_violation")
    ∧ (∀ k m, lookupMem s mid = some (k, m) → m.is_expired now = false →
        ¬ (m.policy.scope = .agent ∧ m.agent_id ≠ caller) →
        m.policy.allow_read = false →
        (readOp s mid caller now aid ts).1.1 = none
        ∧ (readOp s mid caller now aid ts).1.2.decision = "denied"
        ∧ (readOp s mid caller now aid ts).1.2.reason = "read_not_allowed")
    ∧ (∀ k m, lookupMem s mid = some (k, m) → m.is_expired now = false →
        ¬ (m.policy.scope = .agent ∧ m.agent_id ≠ caller) →
        m.policy.allow_read = true →
        (readOp s mid caller now aid ts).1.1 = some m
        ∧ (readOp s mid caller now aid ts).1.2.decision = "allowed") := by
  refine ⟨?_, ?_, ?_, ?_, ?_⟩
  · intro h
    simp only [readOp, lookupMem] at *
    rw [h]
    refine ⟨by trivial, by trivial, by trivial⟩
  · intro k m h hexp
    simp only [readOp, lookupMem] at *
    rw [h]
    simp only [if_pos hexp]
    refine ⟨by trivial, by trivial, by trivial⟩
  · intro k m h hexp hsc hne
    simp only [readOp, lookupMem] at *
    rw [h]
    have hx : ¬ (m.is_expired now = true) := by simp [hexp]
    simp only [if_neg hx, if_pos (And.intro hsc hne)]
    refine ⟨by trivial, by trivial, by trivial⟩
  · intro k m h hexp hsc hr
    simp only [readOp, lookupMem] at *
    rw [h]
    have hx : ¬ (m.is_expired now = true) := by simp [hexp]
    have hr2 : ¬ (m.policy.allow_read = true) := by simp [hr]
    simp only [if_neg hx, if_neg hsc, if_pos hr2]
    refine ⟨by trivial, by trivial, by trivial⟩
  · intro k m h hexp hsc hr
    simp only [readOp, lookupMem] at *
    rw [h]
    have hx : ¬ (m.is_expired now = true) := by simp [hexp]
    have hr2 : ¬ ¬ (m.policy.allow_read = true) := by simp [hr]
    simp only [if_neg hx, if_neg hsc, if_neg hr2]
    refine ⟨by trivial, by trivial⟩

/-- Witness for C1: reading `memA` as a different agent `other` is
denied with `scope_isolation_violation`, while the owner's read
succeeds. -/
theorem claim_C1_witness :
    ((readOp AMGFix.storeAB "A" "other" 10 "aid" "ts").1.1 = none
      ∧ (readOp AMGFix.storeAB "A" "other" 10 "aid" "ts").1.2.reason =
          "scope_isolation_violation")
    ∧ (readOp AMGFix.storeAB "A" "ag" 10 "aid2" "ts").1.1 =
        some AMGFix.memA :=
  ⟨⟨((claim_C1_read_decision_table AMGFix.storeAB "A" "other" 10 "aid"
        "ts").2.2.1 "A" AMGFix.memA (by decide) (by decide) (by decide)
        (by decide)).1,
    ((claim_C1_read_decision_table AMGFix.storeAB "A" "other" 10 "aid"
        "ts").2.2.1 "A" AMGFix.memA (by decide) (by decide) (by decide)
        (by decide)).2.2⟩,
   ((claim_C1_read_decision_table AMGFix.storeAB "A" "ag" 10 "aid2"
        "ts").2.2.2.2 "A" AMGFix.memA (by decide) (by decide)
        (by decide) (by decide)).1⟩

/-- Claim C9: every `read` and `query` invocation — allowed or denied —
appends exactly one audit record to the adapter's log and leaves all
previously appended records in place; the same holds for `write` and
`delete` when they succeed (on failure they raise without touching the
log). -/
theorem claim_C9_audit_append_only (s : Store) (mid caller : String)
    (f : Filters) (m : Memory) (rid act rsn : String) (now : Int)
    (aid ts : String) :
    ((readOp s mid caller now aid ts).2.audit_log =
        s.audit_log ++ [(readOp s mid caller now aid ts).1.2])
    ∧ ((queryOp s f caller now aid ts).2.audit_log =
        s.audit_log ++ [(queryOp s f caller now aid ts).1.2])
    ∧ (match writeOp s m rid aid ts with
       | .ok p => p.2.audit_log = s.audit_log ++ [p.1]
       | .error _ => True)
    ∧ (match deleteOp s mid act rsn aid ts with
       | .ok p => p.2.audit_log = s.audit_log ++ [p.1]
       | .error _ => True) := by
  refine ⟨?_, ?_, ?_, ?_⟩
  · unfold readOp
    split
    · rfl
    · split_ifs <;> rfl
  · rfl
  · unfold writeOp
    split_ifs <;> trivial
  · unfold deleteOp
    rcases hf : List.find? (fun p => p.1 == mid) s.memories with _ | q
    · simp only [hf]
    · simp only [hf]

/-- Claim C10: expiry is boundary-inclusive — `is_expired now` holds
exactly when `now ≥ expires_at`, so a memory expires at the very
instant `expires_at`; `read` never returns an expired memory and
`query` never includes one. -/
theorem claim_C10_expiry_boundary :
    (∀ (m : Memory) (now : Int),
      m.is_expired now = true ↔ m.expires_at ≤ now)
    ∧ (∀ m : Memory, m.is_expired m.expires_at = true)
    ∧ (∀ (s : Store) (mid caller : String) (now : Int) (aid ts : String)
        (m : Memory),
        (readOp s mid caller now aid ts).1.1 = some m →
        m.is_expired now = false)
    ∧ (∀ (s : Store) (f : Filters) (caller : String) (now : Int)
        (aid ts : String) (m : Memory),
        m ∈ (queryOp s f caller now aid ts).1.1 →
        m.is_expired now = false) := by
  have hdef : ∀ (m : Memory) (now : Int),
      m.is_expired now = true ↔ m.expires_at ≤ now := by
    intro m now
    simp [Memory.is_expired, ge_iff_le]
  refine ⟨hdef, ?_, ?_, ?_⟩
  · intro m
    exact (hdef m m.expires_at).mpr le_rfl
  · intro s mid caller now aid ts m h
    simp only [readOp] at h
    split at h
    · simp at h
    · split_ifs at h with h1 h2 h3
      all_goals simp_all [Bool.not_eq_true, Memory.is_expired]
  · intro s f caller now aid ts m h
    have hm : m ∈ surviving s f caller now := by
      simp only [queryOp] at h
      split at h
      · rename_i qv heq
        split_ifs at h with hcond
        · exact h
        · unfold rankSort at h
          exact List.mem_mergeSort.mp h
      · exact h
    unfold surviving at hm
    rw [List.mem_filter] at hm
    have hp := hm.2
    simp only [Bool.and_eq_true, Bool.not_eq_true'] at hp
    exact hp.1.1.1.2

/-- Witness for C10: `memA` expires exactly at second 86400 — reading it
at 86399 succeeds, and at the boundary instant 86400 `is_expired` is
already true. -/
theorem claim_C10_witness :
    (AMGFix.memA.is_expired 86400 = true
      ∧ 86400 ≤ (86400 : Int))
    ∧ AMGFix.memA.is_expired 86399 = false :=
  ⟨⟨claim_C10_expiry_boundary.2.1 AMGFix.memA, le_rfl⟩, by decide⟩

/-- Claim C7 counterexample: constructing a `Memory` with an empty
`agent_id` succeeds — the dataclass `__post_init__` performs no
`agent_id` validation, contradicting the claim that construction
rejects it. -/
theorem claim_C7_counterexample :
    Memory.mk? "fresh-id" none "" "content" none AMGFix.pol0 0 none
      "agent" =
    .ok { memory_id := "fresh-id", agent_id := "", content := "content",
          vector := none, policy := AMGFix.pol0, created_at := 0,
          expires_at := 86400, created_by := "agent" } := rfl

/-- Claim C7 (amended): `MemoryPolicy` construction fails exactly for
non-positive `ttl_seconds`; `Memory` construction uses the fresh id
when no `memory_id` is supplied and sets
`expires_at = created_at + ttl_seconds` when `expires_at` is absent,
but accepts any `agent_id` including the empty one — the empty
`agent_id` is rejected by the storage adapter's `write` instead. -/
theorem claim_C7_amended :
    (∀ (mt : MemoryType) (ttl : Int) (sens : Sensitivity) (sc : Scope)
        (ar aw : Bool) (prov : Option String),
      (ttl ≤ 0 → MemoryPolicy.mk? mt ttl sens sc ar aw prov =
          .error "TTL must be positive")
      ∧ (0 < ttl → MemoryPolicy.mk? mt ttl sens sc ar aw prov =
          .ok { memory_type := mt, ttl_seconds := ttl,
                sensitivity := sens, scope := sc, allow_read := ar,
                allow_write := aw, provenance := prov }))
    ∧ (∀ (fid ag c : String) (vec : Option (List ℚ))
        (pol : MemoryPolicy) (ca : Int) (cb : String),
        Memory.mk? fid none ag c vec pol ca none cb =
          .ok { memory_id := fid, agent_id := ag, content := c,
                vector := vec, policy := pol, created_at := ca,
                expires_at := ca + pol.ttl_seconds, created_by := cb })
    ∧ (∀ (s : Store) (m : Memory) (rid aid ts : String),
        m.agent_id = "" →
        writeOp s m rid aid ts = .error "Memory must have agent_id") := by
  refine ⟨?_, ?_, ?_⟩
  · intro mt ttl sens sc ar aw prov
    constructor
    · intro h
      simp only [MemoryPolicy.mk?, if_pos h]
    · intro h
      have hn : ¬ ttl ≤ 0 := by omega
      simp only [MemoryPolicy.mk?, if_neg hn]
  · intro fid ag c vec pol ca cb
    rfl
  · intro s m rid aid ts h
    simp only [writeOp, if_pos h]

/-- Witness for C7 (amended): TTL 0 is rejected at policy construction,
and a memory with empty `agent_id` is rejected by the adapter write. -/
theorem claim_C7_witness :
    MemoryPolicy.mk? .long_term 0 .pii .agent true true none =
      .error "TTL must be positive"
    ∧ writeOp ({} : Store)
        { memory_id := "x", agent_id := "", content := "c",
          vector := none, policy := AMGFix.pol0, created_at := 0,
          expires_at := 86400 } "rid" "aid" "ts" =
        .error "Memory must have agent_id" :=
  ⟨(claim_C7_amended.1 .long_term 0 .pii .agent true true none).1
      (by decide),
   claim_C7_amended.2.2 ({} : Store)
      { memory_id := "x", agent_id := "", content := "c",
        vector := none, policy := AMGFix.pol0, created_at := 0,
        expires_at := 86400 } "rid" "aid" "ts" rfl⟩

/-- Claim C8: the context builder rejects an empty `agent_id` with
`PolicyEnforcementError "agent_id required"` and a kill-switch read
denial with `AgentDisabledError`, in both cases before issuing any
adapter query — witnessed by the outcome being independent of the
storage state. -/
theorem claim_C8_build_context_guards (storage storage2 : Store)
    (ks : KillSwitch) (agent_id request_id : String) (f : Filters)
    (mi mt now : Int) (aid ts : String) :
    (agent_id = "" →
      build_context storage ks agent_id request_id f mi mt now aid ts =
        .error (.policyEnforcement "agent_id required"))
    ∧ (agent_id ≠ "" → (ks.check_allowed agent_id .read).1 = false →
        build_context storage ks agent_id request_id f mi mt now aid ts =
          .error (.agentDisabled ("Agent blocked: " ++
            (ks.check_allowed agent_id .read).2.getD "None")))
    ∧ ((agent_id = "" ∨ (ks.check_allowed agent_id .read).1 = false) →
        build_context storage ks agent_id request_id f mi mt now aid ts =
          build_context storage2 ks agent_id request_id f mi mt now aid
            ts) := by
  refine ⟨?_, ?_, ?_⟩
  · intro h
    simp only [build_context, if_pos h]
  · intro h hden
    have hn : ¬ (ks.check_allowed agent_id .read).1 = true := by
      simp [hden]
    simp only [build_context, if_neg h, if_pos hn]
  · intro h
    rcases h with h | h
    · simp only [build_context, if_pos h]
    · by_cases he : agent_id = ""
      · simp only [build_context, if_pos he]
      · have hn : ¬ (ks.check_allowed agent_id .read).1 = true := by
          simp [h]
        simp only [build_context, if_neg he, if_pos hn]

/-- Witness for C8: an empty `agent_id` and a disabled agent each fail
with the documented error, regardless of the store contents. -/
theorem claim_C8_witness :
    build_context AMGFix.storeAB ({} : KillSwitch) "" "req" {} 50 4000 0
        "aid" "ts" =
      .error (.policyEnforcement "agent_id required")
    ∧ build_context AMGFix.storeAB
        { agent_states := [("ag", .disabled)] } "ag" "req" {} 50 4000 0
        "aid" "ts" =
      .error (.agentDisabled "Agent blocked: agent_disabled")
    ∧ build_context AMGFix.storeAB
        { agent_states := [("ag", .disabled)] } "ag" "req" {} 50 4000 0
        "aid" "ts" =
      build_context ({} : Store)
        { agent_states := [("ag", .disabled)] } "ag" "req" {} 50 4000 0
        "aid" "ts" :=
  ⟨(claim_C8_build_context_guards AMGFix.storeAB AMGFix.storeAB
      ({} : KillSwitch) "" "req" {} 50 4000 0 "aid" "ts").1 rfl,
   (claim_C8_build_context_guards AMGFix.storeAB AMGFix.storeAB
      { agent_states := [("ag", .disabled)] } "ag" "req" {} 50 4000 0
      "aid" "ts").2.1 (by decide) (by decide),
   (claim_C8_build_context_guards AMGFix.storeAB ({} : Store)
      { agent_states := [("ag", .disabled)] } "ag" "req" {} 50 4000 0
      "aid" "ts").2.2 (Or.inr (by decide))⟩

set_option maxRecDepth 16000 in
/-- Claim C4 counterexample: a kill-switch `disable` produces a record
whose stored signature differs from the SHA-256 digest of the canonical
JSON of the seven claimed fields — `KillSwitch._sign_record` omits
`memory_id` from the signed payload. -/
theorem claim_C4_counterexample :
    ((KillSwitch.disable {} "ag" "maintenance" "admin" "a1"
        "2024-01-01T00:00:00").1).signature ≠
      specSign (KillSwitch.disable {} "ag" "maintenance" "admin" "a1"
        "2024-01-01T00:00:00").1 := by
  decide

/-- Claim C4 (amended): storage-adapter audit records (write, read,
query, delete) are signed with SHA-256 over the canonical JSON of
exactly `{audit_id, timestamp, agent_id, operation, memory_id,
decision, reason}`; kill-switch records (disable, freeze, enable) are
signed over the same canonical JSON with `memory_id` omitted (six
fields only). -/
theorem claim_C4_signature_scheme (r : AuditRecord) (s : Store)
    (mid caller : String) (f : Filters) (m : Memory)
    (rid act rsn ag reason actor : String) (ks : KillSwitch) (now : Int)
    (aid ts : String) :
    storageSign r = specSign r
    ∧ ((readOp s mid caller now aid ts).1.2).signature =
        specSign (readOp s mid caller now aid ts).1.2
    ∧ ((queryOp s f caller now aid ts).1.2).signature =
        specSign (queryOp s f caller now aid ts).1.2
    ∧ (match writeOp s m rid aid ts with
       | .ok p => p.1.signature = specSign p.1
       | .error _ => True)
    ∧ (match deleteOp s mid act rsn aid ts with
       | .ok p => p.1.signature = specSign p.1
       | .error _ => True)
    ∧ ((KillSwitch.disable ks ag reason actor aid ts).1).signature =
        killSwitchSign (KillSwitch.disable ks ag reason actor aid ts).1
    ∧ ((KillSwitch.freeze_writes ks ag reason actor aid ts).1).signature =
        killSwitchSign
          (KillSwitch.freeze_writes ks ag reason actor aid ts).1
    ∧ ((KillSwitch.enable ks ag actor aid ts).1).signature =
        killSwitchSign (KillSwitch.enable ks ag actor aid ts).1 := by
  refine ⟨rfl, ?_, ?_, ?_, ?_, ?_, ?_, ?_⟩
  · unfold readOp
    split
    · rfl
    · split_ifs <;> rfl
  · simp only [queryOp, storageSign, specSign, storageSignPayload,
      specCoreJson]
  · unfold writeOp
    split_ifs <;> trivial
  · unfold deleteOp
    rcases hf : List.find? (fun p => p.1 == mid) s.memories with _ | q
    · simp only [hf]
    · simp only [hf, storageSign, specSign, storageSignPayload,
        specCoreJson]
  · simp only [KillSwitch.disable, killSwitchSign, killSwitchSignPayload]
  · simp only [KillSwitch.freeze_writes, killSwitchSign,
      killSwitchSignPayload]
  · simp only [KillSwitch.enable, killSwitchSign, killSwitchSignPayload]

/-- Claim C6 counterexample: with one surviving memory of 13 estimated
tokens and `max_tokens = 5`, the item is dropped, yet the returned
context's metadata does NOT contain `truncated_by_token_budget` — the
flag is recorded in the query audit record's metadata instead. -/
theorem claim_C6_counterexample :
    ((build_context AMGFix.storeT ({} : KillSwitch) "ag" "req" {} 50 5 10
        "aid" "ts").toOption.map (fun p =>
          ((p.1.metadata.map Prod.fst).contains "truncated_by_token_budget",
           p.1.memories.length,
           p.2.audit_log.map (fun a =>
             dictGetD a.metadata "truncated_by_token_budget"
               (MetaVal.bool false))))) =
      some (false, 0, [MetaVal.bool true])
    ∧ (queryOp AMGFix.storeT {} "ag" 10 "aid" "ts").1.1.length = 1 := by
  constructor
  · rfl
  · rfl

/-- Claim C6 (amended): the builder counts each returned memory as
`whitespace_token_count(content) + 10` tokens, keeps the maximal prefix
whose running total stays within `max_tokens` (stopping before the
first item that would exceed it), caps the result to the first
`max_items`, and, whenever at least one item was dropped, records
`truncated_by_token_budget = true` in the metadata of the query audit
record (the last record of the adapter's log) — not in the returned
context's metadata, which holds exactly the six diagnostic keys. -/
theorem claim_C6_token_budget (storage : Store) (ks : KillSwitch)
    (ag rid : String) (f : Filters) (mi mt now : Int) (aid ts : String)
    (memories : List Memory) :
    (memories.take (enforce_token_budget memories mt).1.length =
        (enforce_token_budget memories mt).1)
    ∧ ((enforce_token_budget memories mt).2 =
        tokenSum (enforce_token_budget memories mt).1)
    ∧ ((enforce_token_budget memories mt).1 = [] ∨
        (enforce_token_budget memories mt).2 ≤ mt)
    ∧ (∀ hd tl,
        memories.drop (enforce_token_budget memories mt).1.length =
          hd :: tl →
        mt < (enforce_token_budget memories mt).2 + tokenCount hd)
    ∧ (0 ≤ mi → ∀ l : List Memory, pySliceTo l mi = l.take mi.toNat)
    ∧ (ag ≠ "" → (ks.check_allowed ag .read).1 = true →
        ((build_context storage ks ag rid f mi mt now aid ts).toOption.map
            (fun p => p.1.memories) =
          some (pySliceTo
            (enforce_token_budget
              (queryOp storage f ag now aid ts).1.1 mt).1 mi))
        ∧ ((build_context storage ks ag rid f mi mt now aid
              ts).toOption.map (fun p => p.1.metadata.map Prod.fst) =
            some ["token_count", "returned_count", "filtered_count",
                  "total_examined", "policy_version", "audit_id"])
        ∧ ((enforce_token_budget
              (queryOp storage f ag now aid ts).1.1 mt).1.length <
              (queryOp storage f ag now aid ts).1.1.length →
            (build_context storage ks ag rid f mi mt now aid
                ts).toOption.map (fun p =>
              p.2.audit_log.getLast?.map (fun a =>
                dictGetD a.metadata "truncated_by_token_budget"
                  (MetaVal.bool false))) =
              some (some (MetaVal.bool true)))) := by
  obtain ⟨h1, h2, h3, h4, h5⟩ := token_budget_loop_spec mt memories 0
  refine ⟨h1, by simpa using h2, ?_, ?_, ?_, ?_⟩
  · by_cases hz : (enforce_token_budget memories mt).1 = []
    · exact Or.inl hz
    · exact Or.inr (h3 hz)
  · exact h5
  · intro hmi l
    simp [pySliceTo, hmi]
  · intro hag hok
    have hg : ¬ ¬ ((ks.check_allowed ag .read).1 = true) :=
      not_not_intro hok
    refine ⟨?_, ?_, ?_⟩
    · simp only [build_context, if_neg hag, if_pos hg, if_neg hg,
        Except.toOption, Option.map]
    · simp only [build_context, if_neg hag, if_pos hg, if_neg hg,
        Except.toOption, Option.map, List.map_cons, List.map_nil]
    · intro htr
      simp only [build_context, if_neg hag, if_pos hg, if_neg hg,
        Except.toOption, Option.map, if_pos htr]
      simp only [queryOp, dictSet, dictGetD]
      simp [List.getLast?_concat, dictSet, dictGetD]

/-- Claim C5 counterexample: `memA` and `memB` carry identical vectors
(equal similarity) and `memB` was created later, so the claimed
`created_at`-descending tie-break would put `B` first; the adapter
returns `[A, B]` — ties keep insertion order. -/
theorem claim_C5_counterexample :
    ((queryOp AMGFix.storeAB { vector := some [1, 0] } "ag" 10 "aid"
        "ts").1.1.map Memory.memory_id = ["A", "B"])
    ∧ simVal [1, 0] AMGFix.memA = simVal [1, 0] AMGFix.memB
    ∧ AMGFix.memA.created_at < AMGFix.memB.created_at := by
  have hsurv : surviving AMGFix.storeAB { vector := some [1, 0] } "ag"
      10 = [AMGFix.memA, AMGFix.memB] := by decide
  have hsorted : List.Pairwise
      (fun a b => (decide (simVal [1, 0] b ≤ simVal [1, 0] a)) = true)
      [AMGFix.memA, AMGFix.memB] := by
    refine List.Pairwise.cons ?_
      (List.Pairwise.cons (fun b hb => absurd hb (List.not_mem_nil b))
        List.Pairwise.nil)
    intro b hb
    rcases List.mem_cons.mp hb with hb | hb
    · subst hb
      exact decide_eq_true (le_refl (simVal [1, 0] AMGFix.memB))
    · exact absurd hb (List.not_mem_nil b)
  have hrank : rankSort [1, 0] [AMGFix.memA, AMGFix.memB] =
      [AMGFix.memA, AMGFix.memB] := by
    unfold rankSort
    exact List.mergeSort_of_sorted hsorted
  have hq : (queryOp AMGFix.storeAB { vector := some [1, 0] } "ag" 10
      "aid" "ts").1.1 = [AMGFix.memA, AMGFix.memB] := by
    simp only [queryOp]
    rw [hsurv, if_neg (by decide)]
    exact hrank
  exact ⟨by simp [hq, AMGFix.memA, AMGFix.memB], rfl, by decide⟩

/-- Claim C5 (amended): with an embedding vector in the filters the
adapter orders the surviving candidates by cosine similarity descending
using a stable sort — the result is a permutation of the candidates,
sorted by the similarity key, and any pair already in key order
(including ties) keeps its insertion order; no `created_at` or
`memory_id` tie-break exists.  Candidates with a missing, empty or
wrong-dimension vector get the sentinel key `-1`, the minimum possible
key, and so sort after every candidate with a higher genuine score. -/
theorem claim_C5_vector_ranking (s : Store) (f : Filters) (ag : String)
    (now : Int) (aid ts : String) (qv : List ℚ) :
    (f.vector = none →
      (queryOp s f ag now aid ts).1.1 = surviving s f ag now)
    ∧ (f.vector = some qv → (qv = [] ∨ surviving s f ag now = []) →
        (queryOp s f ag now aid ts).1.1 = surviving s f ag now)
    ∧ (f.vector = some qv → qv ≠ [] → surviving s f ag now ≠ [] →
        ((queryOp s f ag now aid ts).1.1.Perm (surviving s f ag now)
        ∧ (queryOp s f ag now aid ts).1.1.Pairwise
            (fun a b => simVal qv b ≤ simVal qv a)
        ∧ (∀ a b, List.Sublist [a, b] (surviving s f ag now) →
            simVal qv b ≤ simVal qv a →
            List.Sublist [a, b] (queryOp s f ag now aid ts).1.1)))
    ∧ (∀ m : Memory, m.vector = none → simVal qv m = -1)
    ∧ (∀ m : Memory, m.vector = some [] → simVal qv m = -1)
    ∧ (∀ (m : Memory) (v : List ℚ), m.vector = some v →
        v.length ≠ qv.length → simVal qv m = -1)
    ∧ (∀ m : Memory, -1 ≤ simVal qv m) := by
  have htrans : ∀ (a b c : Memory),
      (decide (simVal qv b ≤ simVal qv a)) = true →
      (decide (simVal qv c ≤ simVal qv b)) = true →
      (decide (simVal qv c ≤ simVal qv a)) = true := by
    intro a b c hab hbc
    rw [decide_eq_true_eq] at *
    exact le_trans hbc hab
  have htotal : ∀ (a b : Memory),
      ((decide (simVal qv b ≤ simVal qv a)) ||
        (decide (simVal qv a ≤ simVal qv b))) = true := by
    intro a b
    rw [Bool.or_eq_true, decide_eq_true_eq, decide_eq_true_eq]
    exact le_total (simVal qv b) (simVal qv a)
  refine ⟨?_, ?_, ?_, ?_, ?_, ?_, simVal_ge_neg_one qv⟩
  · intro hv
    simp only [queryOp, hv]
  · intro hv hc
    simp only [queryOp, hv]
    rw [if_pos hc]
  · intro hv hqv hres
    have hcond : ¬ (qv = [] ∨ surviving s f ag now = []) := by
      rintro (h | h)
      · exact hqv h
      · exact hres h
    have hq : (queryOp s f ag now aid ts).1.1 =
        rankSort qv (surviving s f ag now) := by
      simp only [queryOp, hv]
      rw [if_neg hcond]
    rw [hq]
    unfold rankSort
    refine ⟨List.mergeSort_perm _ _, ?_, ?_⟩
    · have hs := List.sorted_mergeSort htrans htotal
        (surviving s f ag now)
      exact hs.imp (fun h => of_decide_eq_true h)
    · intro a b hsub hle
      exact List.pair_sublist_mergeSort htrans htotal
        (decide_eq_true hle) hsub
  · intro m hm
    unfold simVal
    rw [hm]
  · intro m hm
    unfold simVal
    rw [hm]
    simp
  · intro m v hm hlen
    unfold simVal
    rw [hm]
    dsimp only
    split_ifs with h1 <;> rfl

/-- Witness for C5 (amended): the spec's vector-ranking scenario —
three memories with vectors `[1,0]`, `[0,1]`, `[0.7,0.7]` queried with
`[1,0]` — yields a permutation of the candidates sorted by the
similarity key. -/
theorem claim_C5_witness :
    (queryOp AMGFix.storeV { vector := some [1, 0] } "ag" 10 "aid"
        "ts").1.1.Perm
      (surviving AMGFix.storeV { vector := some [1, 0] } "ag" 10)
    ∧ (queryOp AMGFix.storeV { vector := some [1, 0] } "ag" 10 "aid"
        "ts").1.1.Pairwise
      (fun a b => simVal [1, 0] b ≤ simVal [1, 0] a) :=
  ⟨((claim_C5_vector_ranking AMGFix.storeV { vector := some [1, 0] }
      "ag" 10 "aid" "ts" [1, 0]).2.2.1 rfl (by decide) (by decide)).1,
   ((claim_C5_vector_ranking AMGFix.storeV { vector := some [1, 0] }
      "ag" 10 "aid" "ts" [1, 0]).2.2.1 rfl (by decide) (by decide)).2.1⟩

/-- Witness for C6 (amended): in the concrete truncation scenario the
query audit record (last in the adapter log) carries
`truncated_by_token_budget = true` while the context metadata holds
exactly the six diagnostic keys. -/
theorem claim_C6_witness :
    ((build_context AMGFix.storeT ({} : KillSwitch) "ag" "req" {} 50 5 10
        "aid" "ts").toOption.map (fun p =>
          p.2.audit_log.getLast?.map (fun a =>
            dictGetD a.metadata "truncated_by_token_budget"
              (MetaVal.bool false)))) = some (some (MetaVal.bool true))
    ∧ ((build_context AMGFix.storeT ({} : KillSwitch) "ag" "req" {} 50 5
          10 "aid" "ts").toOption.map
        (fun p => p.1.metadata.map Prod.fst)) =
        some ["token_count", "returned_count", "filtered_count",
              "total_examined", "policy_version", "audit_id"] :=
  ⟨(((claim_C6_token_budget AMGFix.storeT ({} : KillSwitch) "ag" "req"
      {} 50 5 10 "aid" "ts" []).2.2.2.2.2 (by decide)
      (by decide)).2.2) (by decide),
   ((claim_C6_token_budget AMGFix.storeT ({} : KillSwitch) "ag" "req"
      {} 50 5 10 "aid" "ts" []).2.2.2.2.2 (by decide)
      (by decide)).2.1⟩

end Claims
